import Mathlib

/-!
Shallow embedding of the SmartParkIntelligence forecasting core
(src/data_generator.py, src/utils.py, src/prediction_model.py, src/app.py)
and proofs about the specified properties.

Conventions of the embedding:
* timestamps are minutes counted from a fixed epoch falling on a Monday
  at 00:00, so that Python's `datetime.weekday()` (Monday = 0), `.hour`
  and `.minute` become integer arithmetic on the minute count;
* random draws (`np.random.uniform(..)`) become explicit rational
  parameters, so every theorem quantifies over all possible draws;
* Python's `int(x)` on a nonnegative float is truncation toward zero,
  embedded as `truncQ`; a `ZeroDivisionError` is embedded by returning
  `none` from an `Option`-valued function at exactly the inputs where
  Python would raise.
-/

namespace SmartPark

/-- Python `int(q)`: truncation of a rational toward zero. -/
def truncQ (q : ℚ) : ℤ := if 0 ≤ q then ⌊q⌋ else ⌈q⌉

/-- `max(0.05, min(0.95, p))`, the clamp used throughout src/data_generator.py. -/
def clampPct (p : ℚ) : ℚ := max (5/100) (min (95/100) p)

/-- `datetime.weekday()` of a minute count (epoch is a Monday 00:00, Monday = 0). -/
def weekdayOf (t : ℤ) : ℤ := (t.ediv 1440).emod 7

/-- `datetime.hour` of a minute count. -/
def hourOf (t : ℤ) : ℤ := (t.emod 1440).ediv 60

/-- `datetime.minute` of a minute count. -/
def minuteOf (t : ℤ) : ℤ := t.emod 60

/-- `datetime.date()` of a minute count, as a day index. -/
def dateOf (t : ℤ) : ℤ := t.ediv 1440

/-- One row of the DataFrame built by `generate_parking_data` (src/data_generator.py). -/
structure Observation where
  timestamp : ℤ
  occupancy : ℤ
  total_spaces : ℕ
  day_of_week : ℤ
  hour : ℤ
  minute : ℤ
deriving DecidableEq, Repr

/-- The bucket logic of src/data_generator.py lines 40-62: the base draw
(`np.random.uniform(0.3, 0.4)`) plus or minus the bucket adjustment draw,
selected by weekday-vs-weekend and hour of day. -/
def rawPct (w h : ℤ) (base adj : ℚ) : ℚ :=
  if w < 5 then
    if 8 ≤ h ∧ h < 10 then base + adj
    else if 12 ≤ h ∧ h < 14 then base + adj
    else if 16 ≤ h ∧ h < 18 then base + adj
    else if 22 ≤ h ∨ h < 6 then base - adj
    else base
  else
    if 11 ≤ h ∧ h < 15 then base + adj
    else if 19 ≤ h ∧ h < 21 then base + adj
    else if 23 ≤ h ∨ h < 8 then base - adj
    else base

/-- One data point of `generate_parking_data`: clamp the raw percentage to
[0.05, 0.95] and truncate `occupancy_pct * total_spaces` to an integer
(src/data_generator.py lines 64-77). -/
def mkObservation (t : ℤ) (base adj : ℚ) (cap : ℕ) : Observation :=
  let w := weekdayOf t
  let h := hourOf t
  let p := clampPct (rawPct w h base adj)
  { timestamp := t
    occupancy := truncQ (p * cap)
    total_spaces := cap
    day_of_week := w
    hour := h
    minute := minuteOf t }

/-- `num_points = int(total_minutes / interval_minutes) + 1`
(src/data_generator.py line 21). -/
def numPoints (startT endT interval : ℤ) : ℤ :=
  truncQ (((endT - startT : ℤ) : ℚ) / (interval : ℚ)) + 1

/-- `generate_parking_data(start, end, interval, total_spaces)`
(src/data_generator.py lines 5-79). `draws i` is the pair
(base draw, bucket adjustment draw) used at the i-th time point.
`none` embeds the `ZeroDivisionError` Python raises when
`interval_minutes` is zero; the function performs no other validation. -/
def generate_parking_data (startT endT interval : ℤ) (cap : ℕ)
    (draws : ℕ → ℚ × ℚ) : Option (List Observation) :=
  if interval = 0 then none
  else some ((List.range (numPoints startT endT interval).toNat).map
    (fun i : ℕ => mkObservation (startT + (i : ℤ) * interval) (draws i).1 (draws i).2 cap))

/-- Per-area entry of the dictionary built by `get_current_occupancy`
(src/data_generator.py lines 128-145). -/
structure AreaSnapshot where
  name : String
  total : ℕ
  occupied : ℤ
  available : ℤ
  occupancy_pct : ℚ
deriving DecidableEq, Repr

/-- The dictionary returned by `get_current_occupancy`
(src/data_generator.py lines 148-155). -/
structure AggregateSnapshot where
  total_spaces : ℕ
  total_occupied : ℤ
  total_available : ℤ
  occupancy_pct : ℚ
  areas : List AreaSnapshot
deriving DecidableEq, Repr

/-- The hard-coded area table of src/data_generator.py lines 97-102. -/
def dgAreas : List (String × ℕ) :=
  [("Area A - Main", 80), ("Area B - North", 60),
   ("Area C - South", 40), ("Area D - VIP", 20)]

/-- The per-area occupancy percentage of src/data_generator.py lines 130-138:
jitter the base draw, clamp to [0.05, 0.95], and only then apply the 0.7
dampening when the area is the VIP area. -/
def areaOccPct (base modifier : ℚ) (isVIP : Bool) : ℚ :=
  let p := clampPct (base * modifier)
  if isVIP then p * (7/10) else p

/-- One area entry of `get_current_occupancy`: `modifier` is the
`np.random.uniform(0.8, 1.2)` draw for the area
(src/data_generator.py lines 128-143). -/
def mkAreaSnapshot (name : String) (total : ℕ) (base modifier : ℚ) : AreaSnapshot :=
  let p := areaOccPct base modifier (name = "Area D - VIP")
  let occ := truncQ (p * total)
  { name := name
    total := total
    occupied := occ
    available := (total : ℤ) - occ
    occupancy_pct := p * 100 }

/-- `get_current_occupancy(total_spaces)` of src/data_generator.py lines 81-155.
`base` is the time-bucket draw of lines 105-124, `mods i` the jitter draw of
the i-th area. `none` embeds the `ZeroDivisionError` Python raises in
`(total_occupied / total_spaces) * 100` when `total_spaces` is zero. -/
def get_current_occupancy (base : ℚ) (mods : ℕ → ℚ) (total_spaces : ℕ) :
    Option AggregateSnapshot :=
  let areaSnaps := dgAreas.enum.map (fun p => mkAreaSnapshot p.2.1 p.2.2 base (mods p.1))
  let totOcc := (areaSnaps.map (fun a => a.occupied)).sum
  if total_spaces = 0 then none
  else some
    { total_spaces := total_spaces
      total_occupied := totOcc
      total_available := (total_spaces : ℤ) - totOcc
      occupancy_pct := (totOcc : ℚ) / (total_spaces : ℚ) * 100
      areas := areaSnaps }

/-- The dictionary returned by `generate_recommendations` (src/utils.py). -/
structure Recommendation where
  current_status : String
  current_color : String
  trend : String
  trend_icon : String
  recommendation : String
deriving DecidableEq, Repr

/-- The body of `generate_recommendations` (src/utils.py lines 127-170),
defined for a nonzero `total` (the division is guarded in
`generate_recommendations` below). -/
def recsCore (current predicted total : ℚ) : Recommendation :=
  let current_pct := current / total * 100
  let predicted_pct := predicted / total * 100
  { current_status :=
      if current_pct < 50 then "Low occupancy - Plenty of parking available"
      else if current_pct < 80 then "Moderate occupancy - Parking available but filling up"
      else "High occupancy - Limited parking available"
    current_color :=
      if current_pct < 50 then "green"
      else if current_pct < 80 then "orange"
      else "red"
    trend :=
      if predicted_pct - current_pct > 10 then "Occupancy increasing significantly"
      else if predicted_pct - current_pct > 5 then "Occupancy increasing"
      else if predicted_pct - current_pct < -10 then "Occupancy decreasing significantly"
      else if predicted_pct - current_pct < -5 then "Occupancy decreasing"
      else "Occupancy stable"
    trend_icon :=
      if predicted_pct - current_pct > 10 then "↑↑"
      else if predicted_pct - current_pct > 5 then "↑"
      else if predicted_pct - current_pct < -10 then "↓↓"
      else if predicted_pct - current_pct < -5 then "↓"
      else "→"
    recommendation :=
      if predicted_pct ≥ 90 then
        "Parking will be very limited. Consider alternative transportation or arriving early."
      else if predicted_pct ≥ 75 then
        "Parking may be difficult to find during peak hours. Plan accordingly."
      else if predicted_pct ≥ 50 then
        "Moderate parking availability expected. Some searching may be required."
      else
        "Good parking availability expected. No special measures needed." }

/-- `generate_recommendations(current, predicted, total_spaces)`
(src/utils.py lines 115-170). `none` embeds the `ZeroDivisionError`
Python raises at line 127 when `total_spaces` is zero; the source has
no guard of its own. -/
def generate_recommendations (current predicted total : ℚ) : Option Recommendation :=
  if total = 0 then none else some (recsCore current predicted total)

/-- The three-level status in the spec's wording (section 4.3): a function of
the current occupancy ratio with boundaries at 50% and 80%. -/
def statusOfShare (r : ℚ) : String :=
  if r < 1/2 then "Low occupancy - Plenty of parking available"
  else if r < 4/5 then "Moderate occupancy - Parking available but filling up"
  else "High occupancy - Limited parking available"

/-- The five-level trend in the spec's wording: a function of the
predicted-minus-current ratio delta with boundaries at ±10pp and ±5pp. -/
def trendOfDelta (d : ℚ) : String :=
  if d > 1/10 then "Occupancy increasing significantly"
  else if d > 1/20 then "Occupancy increasing"
  else if d < -(1/10) then "Occupancy decreasing significantly"
  else if d < -(1/20) then "Occupancy decreasing"
  else "Occupancy stable"

/-- The four suggestion tiers in the spec's wording: a function of the
predicted ratio with boundaries at 90%, 75% and 50%. -/
def suggestionOfShare (r : ℚ) : String :=
  if r ≥ 9/10 then
    "Parking will be very limited. Consider alternative transportation or arriving early."
  else if r ≥ 3/4 then
    "Parking may be difficult to find during peak hours. Plan accordingly."
  else if r ≥ 1/2 then
    "Moderate parking availability expected. Some searching may be required."
  else
    "Good parking availability expected. No special measures needed."

/-- Python 3 `round` on a rational: round half to even. -/
def pyRound (q : ℚ) : ℤ :=
  let f := ⌊q⌋
  if q - f < 1/2 then f
  else if q - f > 1/2 then f + 1
  else if f % 2 = 0 then f else f + 1

/-- `predict_parking_availability(model, day_of_week, hour, minute)`
(src/prediction_model.py lines 47-71): the opaque fitted estimator is a
parameter `model` giving the scalar prediction for a feature triple;
the result is `max(0, int(round(prediction)))`. -/
def predict_parking_availability (model : ℤ → ℤ → ℤ → ℚ) (w h m : ℤ) : ℤ :=
  max 0 (pyRound (model w h m))

/-- One row of the DataFrame built by `predict_next_day`
(src/prediction_model.py lines 102-107). -/
structure PredEntry where
  timestamp : ℤ
  predicted_occupancy : ℤ
  occupancy_pct : ℚ
  available_spaces : ℤ
deriving DecidableEq, Repr

/-- `predict_next_day(model, total_spaces)` (src/prediction_model.py
lines 73-109): one prediction per hour for `i` in `range(1, 25)`, at
`now + i` hours, with `minute = 0`. `none` embeds the
`ZeroDivisionError` Python raises at line 100 when `total_spaces`
is zero. -/
def predict_next_day (model : ℤ → ℤ → ℤ → ℚ) (now : ℤ) (total_spaces : ℤ) :
    Option (List PredEntry) :=
  if total_spaces = 0 then none
  else some ((List.range 24).map (fun j : ℕ =>
    let t := now + 60 * ((j : ℤ) + 1)
    let occ := predict_parking_availability model (weekdayOf t) (hourOf t) 0
    { timestamp := t
      predicted_occupancy := occ
      occupancy_pct := (occ : ℚ) / (total_spaces : ℚ) * 100
      available_spaces := total_spaces - occ }))

/-- The fields of the statistics dictionary of `calculate_statistics`
(src/utils.py lines 30-113) that concern the trailing-week window and
the busy-times block. -/
structure Stats where
  avg_week : ℚ
  peak_week : ℤ
  min_week : ℤ
  busiest_hour : ℤ
  quietest_hour : ℤ
  busiest_day : ℤ
  quietest_day : ℤ
  busiest_day_name : String
  quietest_day_name : String
deriving DecidableEq, Repr

/-- The trailing-week window of `calculate_statistics` (src/utils.py
lines 45-46): rows whose calendar date is at least `today - 7` days. -/
def lastWeekData (rows : List Observation) (today : ℤ) : List Observation :=
  rows.filter (fun o => today - 7 ≤ dateOf o.timestamp)

/-- Pandas `.mean()` of the occupancy column. -/
def meanOcc (rows : List Observation) : ℚ :=
  ((rows.map (fun o => o.occupancy)).sum : ℚ) / (rows.length : ℚ)

/-- The distinct keys of a pandas `groupby`, in ascending order. -/
def sortedKeys (ks : List ℤ) : List ℤ :=
  ks.dedup.insertionSort (fun a b => a ≤ b)

/-- Pandas `groupby(key)['occupancy'].mean()` evaluated at one key. -/
def groupMean (rows : List Observation) (key : Observation → ℤ) (k : ℤ) : ℚ :=
  meanOcc (rows.filter (fun o => key o = k))

/-- Pandas `idxmax`: the first key attaining the maximum, the key list
being in ascending order. -/
def firstArgmax (f : ℤ → ℚ) : List ℤ → ℤ
  | [] => 0
  | k :: ks => ks.foldl (fun best k2 => if f best < f k2 then k2 else best) k

/-- Pandas `idxmin`: the first key attaining the minimum. -/
def firstArgmin (f : ℤ → ℚ) : List ℤ → ℤ
  | [] => 0
  | k :: ks => ks.foldl (fun best k2 => if f k2 < f best then k2 else best) k

/-- The `day_names` list of src/utils.py line 102. -/
def dayNames : List String :=
  ["Monday", "Tuesday", "Wednesday", "Thursday", "Friday", "Saturday", "Sunday"]

/-- `calculate_statistics(historical_data)` (src/utils.py lines 30-113),
restricted to the trailing-week and busy-times fields. `today` is
`datetime.now().date()` as a day index. Every field falls back to its
documented default when the trailing-week window is empty
(lines 81-87 and 105-111). -/
def calculate_statistics (rows : List Observation) (today : ℤ) : Stats :=
  let week := lastWeekData rows today
  let bh := if 0 < week.length then
      firstArgmax (groupMean week (fun o => o.hour)) (sortedKeys (week.map (fun o => o.hour)))
    else 12
  let qh := if 0 < week.length then
      firstArgmin (groupMean week (fun o => o.hour)) (sortedKeys (week.map (fun o => o.hour)))
    else 3
  let bd := if 0 < week.length then
      firstArgmax (groupMean week (fun o => o.day_of_week))
        (sortedKeys (week.map (fun o => o.day_of_week)))
    else 2
  let qd := if 0 < week.length then
      firstArgmin (groupMean week (fun o => o.day_of_week))
        (sortedKeys (week.map (fun o => o.day_of_week)))
    else 6
  { avg_week := if 0 < week.length then meanOcc week else 0
    peak_week := if 0 < week.length then ((week.map (fun o => o.occupancy)).max?.getD 0) else 0
    min_week := if 0 < week.length then ((week.map (fun o => o.occupancy)).min?.getD 0) else 0
    busiest_hour := bh
    quietest_hour := qh
    busiest_day := bd
    quietest_day := qd
    busiest_day_name := if 0 < week.length then dayNames.getD bd.toNat "" else "Wednesday"
    quietest_day_name := if 0 < week.length then dayNames.getD qd.toNat "" else "Sunday" }

/-- The session state tracked by `update_data` (src/app.py lines 64-118):
the last-refresh timestamp (seconds) and, for the proofs, a count of the
retrainings performed. -/
structure SchedState where
  lastUpdate : ℤ
  retrainCount : ℕ
deriving DecidableEq, Repr

/-- `update_data()` (src/app.py lines 80-118) at wall-clock time `now`
(seconds): when `(now - last_update).total_seconds() >= 900` the
historical data is refreshed, the model retrained and `last_update`
set to `now`; otherwise nothing changes. -/
def update_data (s : SchedState) (now : ℤ) : SchedState :=
  if 900 ≤ now - s.lastUpdate then
    { lastUpdate := now, retrainCount := s.retrainCount + 1 }
  else s

/-! ## Helper lemmas -/

lemma clampPct_lower (p : ℚ) : 5/100 ≤ clampPct p := le_max_left _ _

lemma clampPct_upper (p : ℚ) : clampPct p ≤ 95/100 :=
  max_le (by norm_num) (min_le_left _ _)

lemma truncQ_of_nonneg {q : ℚ} (h : 0 ≤ q) : truncQ q = ⌊q⌋ := if_pos h

/-- Bounds for the occupancy of a single generated observation: nonnegative,
at most the capacity, at least `⌊0.05 · capacity⌋`, and at most
`0.95 · capacity`. -/
lemma mkObservation_occupancy_bounds (t : ℤ) (b a : ℚ) (cap : ℕ) :
    0 ≤ (mkObservation t b a cap).occupancy ∧
    (mkObservation t b a cap).occupancy ≤ (cap : ℤ) ∧
    ⌊(5/100 : ℚ) * cap⌋ ≤ (mkObservation t b a cap).occupancy ∧
    ((mkObservation t b a cap).occupancy : ℚ) ≤ (95/100) * cap := by
  have hcap : (0 : ℚ) ≤ (cap : ℚ) := Nat.cast_nonneg cap
  set p := clampPct (rawPct (weekdayOf t) (hourOf t) b a) with hp
  have hl : (5/100 : ℚ) ≤ p := clampPct_lower _
  have hu : p ≤ 95/100 := clampPct_upper _
  have hq0 : (0 : ℚ) ≤ p * cap := mul_nonneg (le_trans (by norm_num) hl) hcap
  have hocc : (mkObservation t b a cap).occupancy = ⌊p * (cap : ℚ)⌋ := by
    simp only [mkObservation, truncQ_of_nonneg hq0, hp]
  refine ⟨?_, ?_, ?_, ?_⟩
  · rw [hocc]; exact Int.floor_nonneg.mpr hq0
  · rw [hocc]
    have : p * (cap : ℚ) ≤ (cap : ℚ) := by nlinarith
    calc ⌊p * (cap : ℚ)⌋ ≤ ⌊(cap : ℚ)⌋ := Int.floor_le_floor this
    _ = (cap : ℤ) := by exact_mod_cast Int.floor_intCast (cap : ℤ)
  · rw [hocc]
    exact Int.floor_le_floor (mul_le_mul_of_nonneg_right hl hcap)
  · rw [hocc]
    calc (⌊p * (cap : ℚ)⌋ : ℚ) ≤ p * cap := Int.floor_le _
    _ ≤ (95/100) * cap := mul_le_mul_of_nonneg_right hu hcap

/-! ## C1: clamp invariant of the generated series -/

/-- C1 (amended): every observation of a series produced by
`generate_parking_data` with start < end, interval > 0 and capacity > 0
satisfies `0 ≤ occupied_count ≤ capacity` and
`⌊0.05·capacity⌋ ≤ occupied_count ≤ 0.95·capacity`, for every draw of the
random adjustments. The clamp to [0.05, 0.95] happens on the ratio before
`int()` truncation, so after truncation only the floor of `0.05·capacity`
is guaranteed as lower bound. -/
theorem generate_clamp_bounds (startT endT interval : ℤ) (cap : ℕ)
    (draws : ℕ → ℚ × ℚ) (_hse : startT < endT) (hi : 0 < interval) (_hc : 0 < cap) :
    ∀ l, generate_parking_data startT endT interval cap draws = some l →
    ∀ o ∈ l, 0 ≤ o.occupancy ∧ o.occupancy ≤ (cap : ℤ) ∧
      ⌊(5/100 : ℚ) * cap⌋ ≤ o.occupancy ∧ (o.occupancy : ℚ) ≤ (95/100) * cap := by
  intro l hl o ho
  have hne : interval ≠ 0 := ne_of_gt hi
  rw [generate_parking_data, if_neg hne] at hl
  obtain rfl : _ = l := Option.some.inj hl
  obtain ⟨i, _, rfl⟩ := List.mem_map.mp ho
  exact mkObservation_occupancy_bounds _ _ _ _

/-- Witness for `generate_clamp_bounds` at start = 0, end = 15 minutes,
interval = 15 minutes, capacity = 200, constant draws (0.35, 0.2): the
first generated observation obeys all four bounds. -/
theorem generate_clamp_bounds_witness :
    0 ≤ (mkObservation 0 (7/20) (1/5) 200).occupancy ∧
    (mkObservation 0 (7/20) (1/5) 200).occupancy ≤ (200 : ℤ) ∧
    ⌊(5/100 : ℚ) * 200⌋ ≤ (mkObservation 0 (7/20) (1/5) 200).occupancy ∧
    ((mkObservation 0 (7/20) (1/5) 200).occupancy : ℚ) ≤ (95/100) * 200 := by
  have hl : generate_parking_data 0 15 15 200 (fun _ => (7/20, 1/5)) =
      some [mkObservation 0 (7/20) (1/5) 200, mkObservation 15 (7/20) (1/5) 200] := by
    have h2 : numPoints 0 15 15 = 2 := by norm_num [numPoints, truncQ]
    norm_num [generate_parking_data, h2, (by decide : (2:ℤ).toNat = 2), List.range_succ]
  have h := generate_clamp_bounds 0 15 15 200 (fun _ => (7/20, 1/5))
    (by norm_num) (by norm_num) (by norm_num)
    [mkObservation 0 (7/20) (1/5) 200, mkObservation 15 (7/20) (1/5) 200]
    hl (mkObservation 0 (7/20) (1/5) 200) (by simp)
  exact_mod_cast h

/-- C1 counterexample to the claim as stated: at capacity 10, for the
reachable draw base = 0.3, adjustment = 0.3 in the weekend late-night
bucket (Saturday 23:00, minute counts 8580 and 8595), the generated
occupancy is `int(0.05 * 10) = 0`, which is strictly below
`0.05 · capacity = 0.5`. All preconditions of the claim hold
(start < end, interval > 0, capacity > 0). -/
theorem generate_clamp_bounds_cex :
    (8580 : ℤ) < 8595 ∧ (0 : ℤ) < 15 ∧ (0 : ℕ) < 10 ∧
    generate_parking_data 8580 8595 15 10 (fun _ => (3/10, 3/10)) =
      some [mkObservation 8580 (3/10) (3/10) 10, mkObservation 8595 (3/10) (3/10) 10] ∧
    (mkObservation 8580 (3/10) (3/10) 10).occupancy = 0 ∧
    ¬ ((5/100 : ℚ) * 10 ≤ ((mkObservation 8580 (3/10) (3/10) 10).occupancy : ℚ)) := by
  have hocc : (mkObservation 8580 (3/10) (3/10) 10).occupancy = 0 := by
    norm_num [mkObservation, rawPct, clampPct, truncQ,
      (by decide : weekdayOf 8580 = 5), (by decide : hourOf 8580 = 23)]
  have hl : generate_parking_data 8580 8595 15 10 (fun _ => (3/10, 3/10)) =
      some [mkObservation 8580 (3/10) (3/10) 10, mkObservation 8595 (3/10) (3/10) 10] := by
    have h2 : numPoints 8580 8595 15 = 2 := by norm_num [numPoints, truncQ]
    norm_num [generate_parking_data, h2, (by decide : (2:ℤ).toNat = 2), List.range_succ]
  exact ⟨by norm_num, by norm_num, by norm_num, hl, hocc, by rw [hocc]; norm_num⟩

/-! ## C2: the snapshot operation at capacity 0 -/

/-- C2 (code behavior at the failing input): `get_current_occupancy` of
src/data_generator.py called with `total_spaces = 0` hits the division
by zero in `(total_occupied / total_spaces) * 100` for every draw of the
randomness, instead of returning the zeroed snapshot the spec requires. -/
theorem snapshot_capacity_zero_raises (base : ℚ) (mods : ℕ → ℚ) :
    get_current_occupancy base mods 0 = none := by
  simp [get_current_occupancy]

/-! ## C3: ratio computations at capacity 0 -/

/-- C3 (code behavior at the failing input): `generate_recommendations` of
src/utils.py has no capacity guard; with `total_spaces = 0` it hits the
division by zero in `(current_occupancy / total_spaces) * 100` for every
pair of occupancy inputs, instead of short-circuiting to a defined
zero/empty result. -/
theorem recommendations_capacity_zero_raises (current predicted : ℚ) :
    generate_recommendations current predicted 0 = none := by
  simp [generate_recommendations]

/-! ## C7: series generation without range validation -/

/-- C7 (amended): `generate_parking_data` performs no range validation.
With start = end and a positive interval it returns a one-observation
series; with start > end by at least one positive interval it returns an
empty series; with interval = 0 it fails with a division error during the
computation of `num_points` — in no case is an InvalidRange error raised
before computation. -/
theorem generate_no_range_validation (startT endT interval : ℤ) (cap : ℕ)
    (draws : ℕ → ℚ × ℚ) :
    (startT = endT → 0 < interval →
      generate_parking_data startT endT interval cap draws =
        some [mkObservation startT (draws 0).1 (draws 0).2 cap]) ∧
    (0 < interval → endT - startT ≤ -interval →
      generate_parking_data startT endT interval cap draws = some []) ∧
    (interval = 0 → generate_parking_data startT endT interval cap draws = none) := by
  refine ⟨?_, ?_, ?_⟩
  · intro heq hi
    subst heq
    have hne : interval ≠ 0 := ne_of_gt hi
    have h1 : numPoints startT startT interval = 1 := by
      simp [numPoints, truncQ]
    rw [generate_parking_data, if_neg hne, h1]
    norm_num [List.range_succ]
  · intro hi hle
    have hne : interval ≠ 0 := ne_of_gt hi
    have hle' : ((endT : ℚ)) - (startT : ℚ) ≤ -(interval : ℚ) := by exact_mod_cast hle
    have hq : (((endT - startT : ℤ) : ℚ) / (interval : ℚ)) ≤ -1 := by
      rw [div_le_iff₀ (by exact_mod_cast hi)]
      push_cast
      linarith
    have hneg : ¬ (0 : ℚ) ≤ (((endT - startT : ℤ) : ℚ) / (interval : ℚ)) := by linarith
    have h0 : numPoints startT endT interval ≤ 0 := by
      rw [numPoints, truncQ, if_neg hneg]
      have : (⌈((endT - startT : ℤ) : ℚ) / (interval : ℚ)⌉ : ℤ) ≤ -1 := by
        have := Int.ceil_le.mpr (le_trans hq (by norm_num : (-1 : ℚ) ≤ ((-1 : ℤ) : ℚ)))
        exact_mod_cast this
      omega
    rw [generate_parking_data, if_neg hne]
    rw [Int.toNat_of_nonpos h0]
    simp
  · intro h0
    rw [generate_parking_data, if_pos h0]

/-- Witness for `generate_no_range_validation`: at start = end = 5,
interval = 15, capacity = 200, a one-observation series is returned. -/
theorem generate_no_range_validation_witness :
    generate_parking_data 5 5 15 200 (fun _ => (7/20, 1/5)) =
      some [mkObservation 5 (7/20) (1/5) 200] :=
  (generate_no_range_validation 5 5 15 200 (fun _ => (7/20, 1/5))).1 rfl (by norm_num)

/-- C7 counterexample to the claim as stated: at start = end = 0 (so
start ≥ end) with interval 15, `generate_parking_data` is not rejected:
it produces a series of one observation. -/
theorem generate_no_range_validation_cex :
    generate_parking_data 0 0 15 200 (fun _ => (7/20, 1/5)) =
      some [mkObservation 0 (7/20) (1/5) 200] ∧
    generate_parking_data 0 0 15 200 (fun _ => (7/20, 1/5)) ≠ none := by
  have h1 : numPoints 0 0 15 = 1 := by norm_num [numPoints, truncQ]
  have hl : generate_parking_data 0 0 15 200 (fun _ => (7/20, 1/5)) =
      some [mkObservation 0 (7/20) (1/5) 200] := by
    norm_num [generate_parking_data, h1, (by decide : (1:ℤ).toNat = 1), List.range_succ]
  exact ⟨hl, by rw [hl]; exact Option.some_ne_none _⟩

/-! ## C4: shape of the 24-hour forecast -/

lemma get_map_range {α : Type} (f : ℕ → α) (n j : ℕ) (h : j < n) :
    ((List.range n).map f).get? j = some (f j) := by
  rw [List.get?_eq_getElem?, List.getElem?_map, List.getElem?_range h]
  rfl

/-- C4 (amended): for every trained model and every nonzero capacity,
`predict_next_day` returns exactly 24 entries, each entry's timestamp one
hour (60 minutes) after the previous one, the first timestamp being the
current moment plus one hour. Capacity 0 instead fails with a division
error while computing `occupancy_pct`, so no entries are returned there. -/
theorem predict_next_day_shape (model : ℤ → ℤ → ℤ → ℚ) (now : ℤ) (total : ℤ)
    (h : total ≠ 0) :
    ∃ l, predict_next_day model now total = some l ∧ l.length = 24 ∧
      (∀ j : ℕ, j + 1 < 24 → ∃ a b, l.get? j = some a ∧ l.get? (j + 1) = some b ∧
        b.timestamp = a.timestamp + 60) ∧
      l.head?.map PredEntry.timestamp = some (now + 60) := by
  rw [predict_next_day, if_neg h]
  refine ⟨_, rfl, by simp, ?_, ?_⟩
  · intro j hj
    refine ⟨_, _, get_map_range _ 24 j (by omega), get_map_range _ 24 (j + 1) hj, ?_⟩
    dsimp only
    push_cast
    ring
  · rw [List.head?_map]
    have h0 : (List.range 24).head? = some 0 := rfl
    rw [h0]
    dsimp only [Option.map_some]
    norm_num

/-- Witness for `predict_next_day_shape` at a constant model, now = 0 and
capacity 200: the forecast has exactly 24 entries. -/
theorem predict_next_day_shape_witness :
    Option.map List.length (predict_next_day (fun _ _ _ => (50 : ℚ)) 0 200) = some 24 := by
  obtain ⟨l, hl, hlen, -, -⟩ :=
    predict_next_day_shape (fun _ _ _ => (50 : ℚ)) 0 200 (by norm_num)
  rw [hl]
  simp [hlen]

/-- C4 counterexample to the claim as stated: with capacity 0 the
division by zero in `occupancy_pct` is reached and `predict_next_day`
produces no entries at all, so the claim fails for that capacity. -/
theorem predict_next_day_shape_cex :
    predict_next_day (fun _ _ _ => (50 : ℚ)) 0 0 = none := by
  simp [predict_next_day]

/-! ## C5: recommendation thresholds -/

/-- C5: for every input with capacity > 0, `generate_recommendations`
returns the recommendation whose three-level status is determined by the
current ratio with boundaries 50% and 80%, whose five-level trend is
determined by the predicted-minus-current ratio delta with boundaries at
±10pp and ±5pp, and whose suggestion tier is determined by the predicted
ratio with boundaries 90%, 75% and 50% — the spec-side threshold maps
`statusOfShare`, `trendOfDelta` and `suggestionOfShare`. -/
theorem recommend_thresholds (current predicted total : ℚ) (h : 0 < total) :
    generate_recommendations current predicted total =
      some (recsCore current predicted total) ∧
    (recsCore current predicted total).current_status =
      statusOfShare (current / total) ∧
    (recsCore current predicted total).trend =
      trendOfDelta (predicted / total - current / total) ∧
    (recsCore current predicted total).recommendation =
      suggestionOfShare (predicted / total) := by
  have hne : total ≠ 0 := ne_of_gt h
  refine ⟨by rw [generate_recommendations, if_neg hne], ?_, ?_, ?_⟩
  · show (if current / total * 100 < 50 then _ else _) = _
    rw [statusOfShare]
    split_ifs <;> first | rfl | linarith
  · show (if predicted / total * 100 - current / total * 100 > 10 then _ else _) = _
    rw [trendOfDelta]
    split_ifs <;> first | rfl | linarith
  · show (if predicted / total * 100 ≥ 90 then _ else _) = _
    rw [suggestionOfShare]
    split_ifs <;> first | rfl | linarith

/-- Witness for `recommend_thresholds` at the spec's example
current = 150, predicted = 180, capacity = 200: moderate status, strong
increase trend, and the highest-tier suggestion text. -/
theorem recommend_thresholds_witness :
    (recsCore 150 180 200).current_status =
      "Moderate occupancy - Parking available but filling up" ∧
    (recsCore 150 180 200).trend = "Occupancy increasing significantly" ∧
    (recsCore 150 180 200).recommendation =
      "Parking will be very limited. Consider alternative transportation or arriving early." := by
  have h := recommend_thresholds 150 180 200 (by norm_num)
  refine ⟨?_, ?_, ?_⟩
  · rw [h.2.1]
    norm_num [statusOfShare]
  · rw [h.2.2.1]
    norm_num [trendOfDelta]
  · rw [h.2.2.2]
    norm_num [suggestionOfShare]

/-! ## C6: statistics fallback constants on an empty window -/

/-- C6: whenever the trailing-week window of `calculate_statistics` is
empty, the busy-times fields are exactly the documented fallback
constants: busiest hour 12, quietest hour 3, busiest day name
"Wednesday", quietest day name "Sunday". -/
theorem statistics_empty_window_defaults (rows : List Observation) (today : ℤ)
    (h : lastWeekData rows today = []) :
    (calculate_statistics rows today).busiest_hour = 12 ∧
    (calculate_statistics rows today).quietest_hour = 3 ∧
    (calculate_statistics rows today).busiest_day_name = "Wednesday" ∧
    (calculate_statistics rows today).quietest_day_name = "Sunday" := by
  simp [calculate_statistics, h]

/-- Witness for `statistics_empty_window_defaults` on the empty series. -/
theorem statistics_empty_window_defaults_witness :
    (calculate_statistics [] 0).busiest_hour = 12 ∧
    (calculate_statistics [] 0).quietest_hour = 3 ∧
    (calculate_statistics [] 0).busiest_day_name = "Wednesday" ∧
    (calculate_statistics [] 0).quietest_day_name = "Sunday" :=
  statistics_empty_window_defaults [] 0 rfl

/-! ## C9: refresh coalescing in the scheduler -/

/-- C9 (amended): for two refresh triggers within the 15-minute (900 s)
threshold of each other, at most one retraining occurs; if the first
trigger itself is at or past the threshold since the last refresh then
exactly one occurs; and a trigger arriving when the elapsed time equals
exactly the threshold does refresh (the comparison is ≥, not >). Two
triggers that are both under the threshold since the last refresh
produce no retraining at all, so "exactly one" does not hold
unconditionally. -/
theorem scheduler_coalesces (s : SchedState) (t1 t2 : ℤ) (h12 : t1 ≤ t2)
    (hthr : t2 - t1 < 900) :
    (update_data (update_data s t1) t2).retrainCount ≤ s.retrainCount + 1 ∧
    (900 ≤ t1 - s.lastUpdate →
      (update_data (update_data s t1) t2).retrainCount = s.retrainCount + 1) ∧
    (update_data s (s.lastUpdate + 900)).retrainCount = s.retrainCount + 1 := by
  by_cases h1 : 900 ≤ t1 - s.lastUpdate
  · have h2 : ¬ 900 ≤ t2 - t1 := by omega
    refine ⟨?_, fun _ => ?_, ?_⟩ <;>
      simp [update_data, h1, h2]
  · by_cases h2 : 900 ≤ t2 - s.lastUpdate
    · refine ⟨?_, fun hc => absurd hc h1, ?_⟩ <;>
        simp [update_data, h1, h2]
    · refine ⟨?_, fun hc => absurd hc h1, ?_⟩ <;>
        simp [update_data, h1, h2]

/-- Witness for `scheduler_coalesces`: last refresh at 0 s, triggers at
900 s (exactly the threshold, so it refreshes) and 1000 s (coalesced):
exactly one retraining. -/
theorem scheduler_coalesces_witness :
    (update_data (update_data (SchedState.mk 0 0) 900) 1000).retrainCount = 1 :=
  (scheduler_coalesces (SchedState.mk 0 0) 900 1000 (by norm_num) (by norm_num)).2.1
    (by norm_num)

/-- C9 counterexample to the claim as stated: with the last refresh at
0 s, triggers at 100 s and 200 s are within the threshold of each other
but neither refreshes, so zero retrainings occur rather than exactly
one. -/
theorem scheduler_coalesces_cex :
    (200 : ℤ) - 100 < 900 ∧
    (update_data (update_data (SchedState.mk 0 0) 100) 200).retrainCount = 0 ∧
    (update_data (update_data (SchedState.mk 0 0) 100) 200).retrainCount ≠ 1 := by
  refine ⟨by norm_num, ?_, ?_⟩ <;> simp [update_data]

/-! ## C10: order of jitter, clamping and VIP dampening -/

/-- The per-area computation in the order the spec describes it
(modelled from the spec, section 4.1): jitter and the VIP dampening
factor applied to the ratio first, the clamp to [0.05, 0.95] last. -/
def areaOccPctSpecOrder (base modifier : ℚ) (isVIP : Bool) : ℚ :=
  clampPct (if isVIP then base * modifier * (7/10) else base * modifier)

/-- C10 (amended): in `get_current_occupancy` each area's ratio applies
the jitter, is clamped to [0.05, 0.95], and only then is multiplied by
the 0.7 VIP dampening factor — clamping precedes dampening, not the
reverse. For draws within the documented ranges (base draw in
[0.1, 0.9], jitter in [0.8, 1.2]) every non-VIP ratio lies in
[0.05, 0.95] and the VIP ratio lies in [0.056, 0.665], hence also in
[0.05, 0.95]. -/
theorem area_pct_order_and_bounds (base m : ℚ) (tot : ℕ)
    (hb1 : 1/10 ≤ base) (_hb2 : base ≤ 9/10) (hm1 : 4/5 ≤ m) (_hm2 : m ≤ 6/5) :
    (areaOccPct base m false = clampPct (base * m) ∧
     areaOccPct base m true = clampPct (base * m) * (7/10)) ∧
    (mkAreaSnapshot "Area D - VIP" tot base m).occupancy_pct =
      areaOccPct base m true * 100 ∧
    (1/20 ≤ areaOccPct base m false ∧ areaOccPct base m false ≤ 19/20) ∧
    (7/125 ≤ areaOccPct base m true ∧ areaOccPct base m true ≤ 133/200) ∧
    (1/20 ≤ areaOccPct base m true ∧ areaOccPct base m true ≤ 19/20) := by
  have hprod : (2/25 : ℚ) ≤ base * m := by nlinarith
  have hcl : 2/25 ≤ clampPct (base * m) := by
    rw [clampPct]
    rcases le_total (base * m) (95/100) with hle | hle
    · rw [min_eq_right hle]
      exact le_max_of_le_right hprod
    · rw [min_eq_left hle]
      norm_num
  have hcu : clampPct (base * m) ≤ 95/100 := clampPct_upper _
  have hvip : areaOccPct base m true = clampPct (base * m) * (7/10) := by
    rw [areaOccPct]
    simp
  have hnon : areaOccPct base m false = clampPct (base * m) := by
    rw [areaOccPct]
    simp
  refine ⟨⟨hnon, hvip⟩, ?_, ⟨?_, ?_⟩, ⟨?_, ?_⟩, ⟨?_, ?_⟩⟩
  · rw [mkAreaSnapshot]
    simp
  · rw [hnon]; exact le_trans (by norm_num) hcl
  · rw [hnon]; exact le_trans hcu (by norm_num)
  · rw [hvip]; nlinarith
  · rw [hvip]; nlinarith
  · rw [hvip]; nlinarith
  · rw [hvip]; nlinarith

/-- Witness for `area_pct_order_and_bounds` at base draw 0.5, jitter 1,
area capacity 20. -/
theorem area_pct_order_and_bounds_witness :
    (1/20 : ℚ) ≤ areaOccPct (1/2) 1 true ∧ areaOccPct (1/2) 1 true ≤ 19/20 :=
  (area_pct_order_and_bounds (1/2) 1 20 (by norm_num) (by norm_num) (by norm_num)
    (by norm_num)).2.2.2.2

/-- C10 counterexample to the claim as stated: at the reachable draws
base = 0.9 (weekday morning peak) and jitter = 1.2, the code's VIP ratio
is clamp(1.08) · 0.7 = 0.665, while the order the claim describes
(dampen first, clamp last) would give clamp(0.756) = 0.756 — the two
orders differ observably. -/
theorem area_pct_order_cex :
    areaOccPct (9/10) (6/5) true = 133/200 ∧
    areaOccPctSpecOrder (9/10) (6/5) true = 189/250 ∧
    areaOccPct (9/10) (6/5) true ≠ areaOccPctSpecOrder (9/10) (6/5) true := by
  refine ⟨?_, ?_, ?_⟩
  · norm_num [areaOccPct, clampPct]
  · norm_num [areaOccPctSpecOrder, clampPct]
  · norm_num [areaOccPct, areaOccPctSpecOrder, clampPct]

end SmartPark
